import Mathlib

/-! Shallow embedding of syslogipy (src/syslogipy.py): the duration-string
parser `timestring_to_seconds`, the `FileSyslogger` forwarder state machine,
and the `DirSyslogger` directory scanner, together with theorems about them. -/

/-- Errors raised by the module: `ConfigError(sect, msg)`,
`ArgumentError(arg, value, msg)`, and OS-level errors raised by filesystem
calls (open, getctime, ...) when a file has vanished. -/
inductive SysError where
  | configError (sect msg : String)
  | argumentError (arg value msg : String)
  | ioError (path : String)
deriving DecidableEq

deriving instance DecidableEq for Except

/-- True when a computation failed by raising an `ArgumentError`. -/
def isArgumentErrorResult {α : Type} : Except SysError α → Bool
  | .error (.argumentError _ _ _) => true
  | _ => false

/-- Greedy run of leading decimal digits, mirroring the regex atom `[0-9]+`. -/
def takeDigits : List Char → List Char × List Char
  | [] => ([], [])
  | c :: cs =>
      if c.isDigit then
        let p := takeDigits cs
        (c :: p.1, p.2)
      else ([], c :: cs)

/-- Numeric value of a captured digit group, as Python `int()` computes it. -/
def digitsToNat (ds : List Char) : Nat :=
  ds.foldl (fun a c => 10 * a + (c.toNat - 48)) 0

/-- One mandatory regex group `[0-9]+u`: succeeds iff a nonempty digit run
followed by the unit letter `u` starts at the current position.  The greedy
digit run cannot backtrack into a success, because the character after any
shorter digit run is itself a digit, never the unit letter. -/
def grp (u : Char) (cs : List Char) : Option (Nat × List Char) :=
  let p := takeDigits cs
  if p.1.isEmpty then none
  else
    match p.2 with
    | [] => none
    | r :: rs => if r = u then some (digitsToNat p.1, rs) else none

/-- Optional wrapper `( ... )?`: consume the group if it matches here,
otherwise skip it, consuming nothing. -/
def opt (g : List Char → Option (Nat × List Char)) (cs : List Char) :
    Option Nat × List Char :=
  match g cs with
  | some p => (some p.1, p.2)
  | none => (none, cs)

/-- Deterministic compilation of the anchored regular expression of
`timestring_to_seconds`, five optional named groups in the fixed order
years, days, hours, minutes, seconds.  Every group is optional, so the
match as a whole always succeeds at position 0 (`re.match` never returns
`None` for this pattern), and unmatched trailing text is ignored, exactly
as in the source. -/
def re_match (cs : List Char) :
    Option (Option Nat × Option Nat × Option Nat × Option Nat × Option Nat) :=
  let py := opt (grp 'y') cs
  let pd := opt (grp 'd') py.2
  let ph := opt (grp 'h') pd.2
  let pm := opt (grp 'm') ph.2
  let ps := opt (grp 's') pm.2
  some (py.1, pd.1, ph.1, pm.1, ps.1)

/-- `timestring_to_seconds`: `groupdict('0')` defaults every absent group to
zero and the result is the weighted sum of the components; a failed match
(`None`, on which `.groupdict` raises `AttributeError`) would be reported
as `ArgumentError("timestring", timestring, "invalid format")`. -/
def timestring_to_seconds (cs : List Char) : Except SysError Nat :=
  match re_match cs with
  | none => .error (.argumentError "timestring" (String.mk cs) "invalid format")
  | some g =>
      .ok (31536000 * g.1.getD 0 + 86400 * g.2.1.getD 0 +
           3600 * g.2.2.1.getD 0 + 60 * g.2.2.2.1.getD 0 + g.2.2.2.2.getD 0)

/-- Mode-token resolution performed by `run_config.handle_file` before a
`FileSyslogger` is constructed; an unrecognized token raises
`ConfigError(path, "invalid mode given: " + mode)`. -/
def handle_file_mode (path mode : String) : Except SysError Char :=
  if mode = "trace" ∨ mode = "t" then .ok 't'
  else if mode = "one-time" ∨ mode = "o" then .ok 'o'
  else .error (.configError path ("invalid mode given: " ++ mode))

/-- `FileSyslogger` state: the path (which doubles as the syslog ident), the
mode character (`'o'` one-time, `'t'` trace, `'x'` one-time already done),
and the byte position of the persistent read cursor of the fd opened at
construction time. -/
structure FileSyslogger where
  file : String
  mode : Char
  pos : Nat
deriving DecidableEq

/-- `__log_file`: drain the fd from the cursor to end-of-file via repeated
`readline`, emitting the drained bytes to syslog; the cursor ends at the
current end of file. -/
def FileSyslogger.log_file (fs : FileSyslogger) (content : List Char) :
    FileSyslogger × List Char :=
  ({ fs with pos := content.length }, content.drop fs.pos)

/-- `FileSyslogger.run`, with the file content at call time passed in
explicitly: `'o'` forwards everything then moves to `'x'`; `'x'` is a pure
no-op; `'t'` forwards everything after the cursor; any other mode raises
`ArgumentError("mode", mode, "invalid mode")`. -/
def FileSyslogger.run (fs : FileSyslogger) (content : List Char) :
    Except SysError (FileSyslogger × List Char) :=
  if fs.mode = 'o' then
    let p := fs.log_file content
    .ok ({ p.1 with mode := 'x' }, p.2)
  else if fs.mode = 'x' then .ok (fs, [])
  else if fs.mode = 't' then .ok (fs.log_file content)
  else .error (.argumentError "mode" (String.mk [fs.mode]) "invalid mode")

/-- Repeated `run()` calls; the n-th call sees the n-th file content. -/
def FileSyslogger.runSeq (fs : FileSyslogger) :
    List (List Char) → Except SysError (FileSyslogger × List (List Char))
  | [] => .ok (fs, [])
  | c :: cs =>
      match fs.run c with
      | .error e => .error e
      | .ok p =>
          match FileSyslogger.runSeq p.1 cs with
          | .error e => .error e
          | .ok q => .ok (q.1, p.2 :: q.2)

/-- An event on a traced file: an external append of bytes to the underlying
file, or a `run()` call on the tracking `FileSyslogger`. -/
inductive Ev where
  | append (chunk : List Char)
  | run

/-- Bytes an event appends to the file (a run appends nothing). -/
def Ev.chunk : Ev → List Char
  | .append ch => ch
  | .run => []

/-- All bytes appended to the file over an event sequence. -/
def appendsOf (evs : List Ev) : List Char :=
  (evs.map Ev.chunk).flatten

/-- Execute an event sequence against a `FileSyslogger`, tracking the file
content and collecting the output of every `run()` call. -/
def FileSyslogger.exec (fs : FileSyslogger) (content : List Char)
    (outs : List (List Char)) :
    List Ev → Except SysError (FileSyslogger × List Char × List (List Char))
  | [] => .ok (fs, content, outs)
  | Ev.append ch :: evs => FileSyslogger.exec fs (content ++ ch) outs evs
  | Ev.run :: evs =>
      match fs.run content with
      | .error e => .error e
      | .ok p => FileSyslogger.exec p.1 content (outs ++ [p.2]) evs

/-- A directory entry as seen by one scan: its base name, whether it is a
subdirectory, its ctime, whether it still exists when opened or statted
(`false` models a file vanishing between listing and open), and its bytes. -/
structure DirEntry where
  name : String
  isDir : Bool
  ctime : Int
  present : Bool
  content : List Char
deriving DecidableEq

/-- `os.path.normpath(dir + '/' + file)` for a normalized directory path and
a plain base name. -/
def fullpath (dir name : String) : String := dir ++ "/" ++ name

/-- `os.path.normpath(os.path.dirname(p) + "/_" + os.path.basename(p))`:
the marked name, prefixing `_` to the base name in the same directory. -/
def markedName (dir name : String) : String := dir ++ "/_" ++ name

/-- `open()`: the file content, or an OS error if the file vanished between
the directory listing and the open. -/
def open_file (path : String) (e : DirEntry) : Except SysError (List Char) :=
  if e.present then .ok e.content else .error (.ioError path)

/-- `os.path.getctime`: the change time, or an OS error for a vanished file. -/
def getctime (path : String) (e : DirEntry) : Except SysError Int :=
  if e.present then .ok e.ctime else .error (.ioError path)

/-- `DirSyslogger` state: directory path, suffix filter, backlog string
(re-parsed on every age check), `sleeptime` (the parsed interval; `-1` is
the disabled sentinel once a zero-interval target has fired), and
`lastrun`.  The interval string is consumed into `sleeptime` at
construction time. -/
structure DirSyslogger where
  dir : String
  filetypes : List String
  backlog : String
  sleeptime : Int
  lastrun : Int
deriving DecidableEq

/-- `DirSyslogger.__init__`: `sleeptime = timestring_to_seconds(interval)`,
`lastrun = 0`. -/
def DirSyslogger.init (dir : String) (filetypes : List String)
    (interval backlog : String) : Except SysError DirSyslogger :=
  match timestring_to_seconds interval.data with
  | .error e => .error e
  | .ok n => .ok ⟨dir, filetypes, backlog, (n : Int), 0⟩

/-- `__is_old`: `now - getctime(file) > timestring_to_seconds(backlog)`. -/
def DirSyslogger.is_old (d : DirSyslogger) (now : Int) (e : DirEntry) :
    Except SysError Bool :=
  match getctime (fullpath d.dir e.name) e with
  | .error err => .error err
  | .ok changed =>
      match timestring_to_seconds d.backlog.data with
      | .error err => .error err
      | .ok b => .ok (decide (now - changed > (b : Int)))

/-- A filesystem or syslog effect of a scan, in program order: a syslog
emission of a file's bytes under its path as ident, a rename, or a
deletion. -/
inductive FsAction where
  | emit (path : String) (bytes : List Char)
  | rename (src dst : String)
  | delete (path : String)
deriving DecidableEq

/-- Python `str.startswith` on character sequences. -/
def str_startswith (s pre : String) : Bool :=
  pre.data.isPrefixOf s.data

/-- Python `str.endswith` on character sequences; used by the suffix
filter `file.endswith(type)`. -/
def str_endswith (s post : String) : Bool :=
  post.data.isSuffixOf s.data

/-- The body of the listing loop of `__process_dir` for one entry: compute
`logthis` (suffix match against `filetypes`, an empty filter matches
everything, directories never match), skip the entry when it is false;
delete marked (`_`-prefixed) files that are old; forward unmarked ones
through a transient one-shot `FileSyslogger` and rename them with a `_`
prefix. -/
def DirSyslogger.process_entry (d : DirSyslogger) (now : Int) (e : DirEntry) :
    Except SysError (List FsAction) :=
  let fp := fullpath d.dir e.name
  let logthis :=
    (d.filetypes.any (fun t => str_endswith e.name t) || d.filetypes.isEmpty)
      && !e.isDir
  if logthis then
    if str_startswith e.name "_" then
      match d.is_old now e with
      | .error err => .error err
      | .ok true => .ok [FsAction.delete fp]
      | .ok false => .ok []
    else
      match open_file fp e with
      | .error err => .error err
      | .ok content =>
          match FileSyslogger.run ⟨fp, 'o', 0⟩ content with
          | .error err => .error err
          | .ok p =>
              .ok [FsAction.emit fp p.2,
                   FsAction.rename fp (markedName d.dir e.name)]
  else .ok []

/-- `__process_dir` over the directory listing, in listing order; a
per-entry exception propagates immediately (the loop body has no
try/except). -/
def DirSyslogger.process_dir (d : DirSyslogger) (now : Int) :
    List DirEntry → Except SysError (List FsAction)
  | [] => .ok []
  | e :: es =>
      match d.process_entry now e with
      | .error err => .error err
      | .ok a =>
          match DirSyslogger.process_dir d now es with
          | .error err => .error err
          | .ok rest => .ok (a ++ rest)

/-- `DirSyslogger.run`: return at once when disabled (`sleeptime == -1`);
scan when `now - lastrun > sleeptime`, setting `lastrun = now` first;
afterwards a zero-interval target disables itself.  The Bool records
whether `__process_dir` was invoked. -/
def DirSyslogger.run (d : DirSyslogger) (now : Int) (entries : List DirEntry) :
    Except SysError (DirSyslogger × Bool × List FsAction) :=
  if d.sleeptime = -1 then .ok (d, false, [])
  else
    if now - d.lastrun > d.sleeptime then
      match d.process_dir now entries with
      | .error err => .error err
      | .ok acts =>
          let d1 : DirSyslogger := { d with lastrun := now }
          .ok ((if d1.sleeptime = 0 then { d1 with sleeptime := -1 } else d1),
               true, acts)
    else
      .ok ((if d.sleeptime = 0 then { d with sleeptime := -1 } else d),
           false, [])

/-- Repeated `run()` calls, counting how many of them performed a scan; each
tick supplies the wall clock and the directory listing at that time. -/
def DirSyslogger.runSeq (d : DirSyslogger) :
    List (Int × List DirEntry) → Except SysError (DirSyslogger × Nat)
  | [] => .ok (d, 0)
  | t :: ticks =>
      match d.run t.1 t.2 with
      | .error err => .error err
      | .ok r =>
          match DirSyslogger.runSeq r.1 ticks with
          | .error err => .error err
          | .ok q => .ok (q.1, (if r.2.1 then 1 else 0) + q.2)

/-- C8: `timestring_to_seconds` returns the weighted sum of its duration
components with every component optional and omission meaning zero:
`parse("") = 0`, `parse("5m30s") = 330`, `parse("1y") = 31536000`,
`parse("2d3h") = 2*86400 + 3*3600`, and with all five components present,
`parse("5y4d3h2m1s") = 5*31536000 + 4*86400 + 3*3600 + 2*60 + 1`. -/
theorem timestring_examples :
    timestring_to_seconds "".data = .ok 0 ∧
    timestring_to_seconds "5m30s".data = .ok 330 ∧
    timestring_to_seconds "1y".data = .ok 31536000 ∧
    timestring_to_seconds "2d3h".data = .ok (2 * 86400 + 3 * 3600) ∧
    timestring_to_seconds "5y4d3h2m1s".data =
      .ok (5 * 31536000 + 4 * 86400 + 3 * 3600 + 2 * 60 + 1) := by
  refine ⟨by decide, by decide, by decide, by decide, by decide⟩

/-- C9 counterexample: on the non-empty garbage string "xyz!", which
contains no recognizable duration token at all, `timestring_to_seconds`
does not raise: it returns 0, and the result is not an `ArgumentError`. -/
theorem garbage_timestring_returns_zero_cex :
    timestring_to_seconds "xyz!".data = .ok 0 ∧
    isArgumentErrorResult (timestring_to_seconds "xyz!".data) = false := by
  refine ⟨by decide, by decide⟩

/-- C9 amended: `timestring_to_seconds` never raises its invalid-format
`ArgumentError` on any input, because the fully-optional pattern matches
every string from position 0; garbage input yields 0, and the empty string
yields 0. -/
theorem timestring_never_raises :
    (∀ cs : List Char,
      isArgumentErrorResult (timestring_to_seconds cs) = false) ∧
    timestring_to_seconds "".data = .ok 0 ∧
    timestring_to_seconds "xyz!".data = .ok 0 := by
  refine ⟨fun cs => rfl, by decide, by decide⟩

/-- C10: `timestring_to_seconds` is total: the anchored all-optional match
succeeds at position 0 on every string, the error branch is unreachable,
the function returns a (non-negative, `Nat`-valued) integer for every
input, and unrecognized text such as "5x" silently contributes zero. -/
theorem timestring_total :
    (∀ cs : List Char, (re_match cs).isSome = true) ∧
    (∀ cs : List Char, ∃ n, timestring_to_seconds cs = Except.ok n) ∧
    timestring_to_seconds "5x".data = .ok 0 := by
  refine ⟨fun cs => rfl, fun cs => ⟨_, rfl⟩, by decide⟩

/-- C7 counterexample: the construction path rejects the unrecognized mode
token "bogus" with a `ConfigError`, not an `ArgumentError`. -/
theorem invalid_mode_config_error_cex :
    handle_file_mode "/f" "bogus" =
      .error (.configError "/f" "invalid mode given: bogus") ∧
    isArgumentErrorResult (handle_file_mode "/f" "bogus") = false := by
  refine ⟨by decide, by decide⟩

/-- C7 amended: constructing a file target maps "t" and "trace" to trace
mode and "o" and "one-time" to one-time mode, and for every other mode
token the construction fails with `ConfigError` (the `ArgumentError` for an
invalid mode is raised only later, by `run()`). -/
theorem mode_token_resolution (path mode : String) :
    ((mode = "trace" ∨ mode = "t") → handle_file_mode path mode = .ok 't') ∧
    ((mode = "one-time" ∨ mode = "o") → handle_file_mode path mode = .ok 'o') ∧
    (mode ≠ "trace" → mode ≠ "t" → mode ≠ "one-time" → mode ≠ "o" →
      handle_file_mode path mode =
        .error (.configError path ("invalid mode given: " ++ mode))) := by
  refine ⟨?_, ?_, ?_⟩
  · rintro (h | h) <;> subst h <;> rfl
  · rintro (h | h) <;> subst h <;> rfl
  · intro h1 h2 h3 h4
    simp [handle_file_mode, h1, h2, h3, h4]

/-- Witness for the C7 amended theorem at concrete mode tokens. -/
theorem mode_token_resolution_witness :
    handle_file_mode "/f" "t" = .ok 't' ∧
    handle_file_mode "/f" "one-time" = .ok 'o' ∧
    handle_file_mode "/f" "bogus" =
      .error (.configError "/f" "invalid mode given: bogus") :=
  ⟨(mode_token_resolution "/f" "t").1 (Or.inr rfl),
   (mode_token_resolution "/f" "one-time").2.1 (Or.inl rfl),
   (mode_token_resolution "/f" "bogus").2.2 (by decide) (by decide)
     (by decide) (by decide)⟩

/-- C1: a `FileSyslogger` constructed in one-time mode `'o'` forwards the
full file content exactly once: the first `run()` forwards everything and
moves the mode to the done state `'x'`, and any number of subsequent
`run()` calls forward nothing and leave the state unchanged. -/
theorem onetime_run_forwards_exactly_once (path : String) (c0 : List Char)
    (cs : List (List Char)) :
    FileSyslogger.run ⟨path, 'o', 0⟩ c0 =
      .ok (⟨path, 'x', c0.length⟩, c0) ∧
    FileSyslogger.runSeq ⟨path, 'x', c0.length⟩ cs =
      .ok (⟨path, 'x', c0.length⟩, List.replicate cs.length []) := by
  constructor
  · rfl
  · induction cs with
    | nil => rfl
    | cons c cs ih =>
        have hrun : FileSyslogger.run ⟨path, 'x', c0.length⟩ c =
            .ok (⟨path, 'x', c0.length⟩, []) := rfl
        simp [FileSyslogger.runSeq, hrun, ih, List.replicate_succ]

/-- Executing a concatenation of event lists composes sequentially. -/
theorem exec_append (l1 l2 : List Ev) :
    ∀ (fs : FileSyslogger) (content : List Char) (outs : List (List Char)),
    FileSyslogger.exec fs content outs (l1 ++ l2) =
      match FileSyslogger.exec fs content outs l1 with
      | .ok r => FileSyslogger.exec r.1 r.2.1 r.2.2 l2
      | .error e => .error e := by
  induction l1 with
  | nil => intro fs content outs; rfl
  | cons e l1 ih =>
      intro fs content outs
      cases e with
      | append ch =>
          simpa [FileSyslogger.exec] using ih fs (content ++ ch) outs
      | run =>
          simp only [List.cons_append, FileSyslogger.exec]
          cases fs.run content with
          | error e => rfl
          | ok p => simpa using ih p.1 content (outs ++ [p.2])

/-- Invariant of trace-mode execution: the run never fails, the mode stays
`'t'`, the cursor only moves forward and stays within the file, the
concatenation of everything forwarded so far is exactly the prefix of the
file up to the cursor, and the file only grows by the appended bytes. -/
theorem trace_exec_invariant (evs : List Ev) :
    ∀ (fs : FileSyslogger) (content : List Char) (outs : List (List Char)),
    fs.mode = 't' → fs.pos ≤ content.length →
    outs.flatten = content.take fs.pos →
    ∃ fs' c' outs',
      FileSyslogger.exec fs content outs evs = .ok (fs', c', outs') ∧
      fs'.mode = 't' ∧ fs'.file = fs.file ∧ fs.pos ≤ fs'.pos ∧
      fs'.pos ≤ c'.length ∧ outs'.flatten = c'.take fs'.pos ∧
      c' = content ++ appendsOf evs := by
  induction evs with
  | nil =>
      intro fs content outs hm hp hf
      exact ⟨fs, content, outs, rfl, hm, rfl, le_refl _, hp, hf, by
        simp [appendsOf]⟩
  | cons e evs ih =>
      intro fs content outs hm hp hf
      cases e with
      | append ch =>
          obtain ⟨fs', c', outs', h1, h2, h3, h4, h5, h6, h7⟩ :=
            ih fs (content ++ ch) outs hm (hp.trans (by simp))
              (by rw [hf, List.take_append_of_le_length hp])
          exact ⟨fs', c', outs', h1, h2, h3, h4, h5, h6, by
            rw [h7]; simp [appendsOf, Ev.chunk]⟩
      | run =>
          have hrun : fs.run content =
              .ok ({ fs with pos := content.length }, content.drop fs.pos) := by
            simp [FileSyslogger.run, FileSyslogger.log_file, hm]
          obtain ⟨fs', c', outs', h1, h2, h3, h4, h5, h6, h7⟩ :=
            ih { fs with pos := content.length } content
              (outs ++ [content.drop fs.pos]) hm (le_refl _)
              (by simp [hf, List.take_append_drop])
          refine ⟨fs', c', outs', ?_, h2, h3, hp.trans h4, h5, h6, by
            rw [h7]; simp [appendsOf, Ev.chunk]⟩
          simp [FileSyslogger.exec, hrun, h1]

/-- C2: for a `FileSyslogger` in trace mode `'t'` and any interleaving of
appends and `run()` calls, the forwarded output is exactly the prefix of
the file consumed by the forward-only cursor — nothing is forwarded twice
and nothing within reach of a read is dropped: the concatenation of all
forwarded bytes equals the file content up to the final cursor, the file
content is the initial content plus the appended bytes, and after a
trailing `run()` the forwarded bytes are the entire file content. -/
theorem trace_run_no_dup_no_loss (path : String) (c0 : List Char)
    (evs : List Ev) :
    (∃ fs' c' outs,
      FileSyslogger.exec ⟨path, 't', 0⟩ c0 [] evs = .ok (fs', c', outs) ∧
      fs'.mode = 't' ∧ fs'.pos ≤ c'.length ∧
      outs.flatten = c'.take fs'.pos ∧ c' = c0 ++ appendsOf evs) ∧
    (∃ fs2 c2 outs2,
      FileSyslogger.exec ⟨path, 't', 0⟩ c0 [] (evs ++ [Ev.run]) =
        .ok (fs2, c2, outs2) ∧
      outs2.flatten = c2 ∧ c2 = c0 ++ appendsOf evs) := by
  obtain ⟨fs', c', outs', h1, h2, h3, h4, h5, h6, h7⟩ :=
    trace_exec_invariant evs ⟨path, 't', 0⟩ c0 [] rfl (Nat.zero_le _) (by simp)
  constructor
  · exact ⟨fs', c', outs', h1, h2, h5, h6, h7⟩
  · have hrun : fs'.run c' =
        .ok ({ fs' with pos := c'.length }, c'.drop fs'.pos) := by
      simp [FileSyslogger.run, FileSyslogger.log_file, h2]
    refine ⟨{ fs' with pos := c'.length }, c',
      outs' ++ [c'.drop fs'.pos], ?_, ?_, h7⟩
    · rw [exec_append]
      simp [h1, FileSyslogger.exec, hrun]
    · simp [h6, List.take_append_drop]

/-- A disabled `DirSyslogger` (`sleeptime == -1`) returns immediately from
`run()`: no scan, no filesystem action, state unchanged. -/
theorem dir_disabled_run (d : DirSyslogger) (now : Int)
    (entries : List DirEntry) (h : d.sleeptime = -1) :
    d.run now entries = .ok (d, false, []) := by
  simp [DirSyslogger.run, h]

/-- A disabled `DirSyslogger` stays disabled and never scans over any
sequence of further `run()` calls. -/
theorem dir_disabled_runSeq (ticks : List (Int × List DirEntry))
    (d : DirSyslogger) (h : d.sleeptime = -1) :
    d.runSeq ticks = .ok (d, 0) := by
  induction ticks with
  | nil => rfl
  | cons t ticks ih =>
      simp [DirSyslogger.runSeq, dir_disabled_run d t.1 t.2 h, ih]

/-- First `run()` of a fresh zero-interval target at a positive clock, when
the scan succeeds: it scans and disables itself. -/
theorem dir_zero_first_run (dir : String) (fts : List String)
    (backlog : String) (now : Int) (entries : List DirEntry) (hnow : 0 < now)
    (acts : List FsAction)
    (hpd : DirSyslogger.process_dir ⟨dir, fts, backlog, 0, 0⟩ now entries =
      .ok acts) :
    DirSyslogger.run ⟨dir, fts, backlog, 0, 0⟩ now entries =
      .ok (⟨dir, fts, backlog, -1, now⟩, true, acts) := by
  rw [DirSyslogger.run, if_neg (by simp), if_pos (by simpa using hnow), hpd]
  rfl

/-- First `run()` of a fresh zero-interval target at a positive clock, when
the scan fails: the error propagates out of `run()`. -/
theorem dir_zero_first_run_error (dir : String) (fts : List String)
    (backlog : String) (now : Int) (entries : List DirEntry) (hnow : 0 < now)
    (e : SysError)
    (hpd : DirSyslogger.process_dir ⟨dir, fts, backlog, 0, 0⟩ now entries =
      .error e) :
    DirSyslogger.run ⟨dir, fts, backlog, 0, 0⟩ now entries = .error e := by
  rw [DirSyslogger.run, if_neg (by simp), if_pos (by simpa using hnow), hpd]

/-- C3: a `DirSyslogger` whose interval string parses to 0 seconds performs
exactly one scan: its first `run()` (at any positive clock) invokes the
scan and leaves the target disabled (`sleeptime = -1`), and every later
`run()` call, for any number of calls at any times and any directory
contents, performs no scan and leaves the state unchanged. -/
theorem zero_interval_scans_once
    (dir : String) (fts : List String) (interval backlog : String)
    (d0 d1 : DirSyslogger) (now : Int) (entries : List DirEntry)
    (sc : Bool) (acts : List FsAction) (ticks : List (Int × List DirEntry))
    (hinit : DirSyslogger.init dir fts interval backlog = .ok d0)
    (hzero : timestring_to_seconds interval.data = .ok 0)
    (hnow : 0 < now)
    (hrun : d0.run now entries = .ok (d1, sc, acts)) :
    sc = true ∧ d1.sleeptime = -1 ∧ d1.runSeq ticks = .ok (d1, 0) := by
  rw [DirSyslogger.init, hzero] at hinit
  injection hinit with hd0
  subst hd0
  have hrun2 : DirSyslogger.run ⟨dir, fts, backlog, 0, 0⟩ now entries =
      .ok (d1, sc, acts) := hrun
  cases hpd : DirSyslogger.process_dir ⟨dir, fts, backlog, 0, 0⟩ now entries with
  | error e =>
      rw [dir_zero_first_run_error dir fts backlog now entries hnow e hpd]
        at hrun2
      cases hrun2
  | ok acts0 =>
      rw [dir_zero_first_run dir fts backlog now entries hnow acts0 hpd]
        at hrun2
      injection hrun2 with h
      rw [Prod.mk.injEq, Prod.mk.injEq] at h
      obtain ⟨hA, hB, _⟩ := h
      subst hA
      exact ⟨hB.symm, rfl, dir_disabled_runSeq ticks _ rfl⟩

/-- Witness for C3 at a concrete zero-interval target and tick sequence. -/
theorem zero_interval_scans_once_witness :
    true = true ∧
    (⟨"/d", ["log"], "7d", -1, 5⟩ : DirSyslogger).sleeptime = -1 ∧
    DirSyslogger.runSeq ⟨"/d", ["log"], "7d", -1, 5⟩ [(6, []), (7, [])] =
      .ok (⟨"/d", ["log"], "7d", -1, 5⟩, 0) :=
  zero_interval_scans_once "/d" ["log"] "0" "7d"
    ⟨"/d", ["log"], "7d", 0, 0⟩ ⟨"/d", ["log"], "7d", -1, 5⟩ 5 [] true []
    [(6, []), (7, [])] (by decide) (by decide) (by decide) (by decide)

/-- C4 counterexample: the same marked 10-day-old file `_old.txt` (backlog
7 days) is left alone when `filetypes = ["log"]` but deleted when
`filetypes = []` — deletion eligibility of a marked file does depend on
the suffix filter, because the `logthis` check skips non-matching entries
before the marked-file branch is reached. -/
theorem deletion_depends_on_filetypes_cex :
    DirSyslogger.process_entry ⟨"/logs", ["log"], "7d", 0, 0⟩ 864000
      ⟨"_old.txt", false, 0, true, []⟩ = .ok [] ∧
    DirSyslogger.process_entry ⟨"/logs", [], "7d", 0, 0⟩ 864000
      ⟨"_old.txt", false, 0, true, []⟩ =
      .ok [FsAction.delete "/logs/_old.txt"] := by
  refine ⟨by decide, by decide⟩

/-- C4 amended: a marked, present, non-directory entry is deleted by the
scan if and only if it passes the suffix filter (`filetypes` empty or the
name ends with a configured suffix) and `now - ctime > backlogSeconds`. -/
theorem marked_deletion_requires_suffix_match
    (d : DirSyslogger) (now : Int) (e : DirEntry) (b : Nat)
    (hm : str_startswith e.name "_" = true) (hd : e.isDir = false)
    (hp : e.present = true)
    (hb : timestring_to_seconds d.backlog.data = .ok b) :
    d.process_entry now e = .ok [FsAction.delete (fullpath d.dir e.name)] ↔
      ((d.filetypes.any (fun t => str_endswith e.name t) ||
        d.filetypes.isEmpty) = true ∧ now - e.ctime > (b : Int)) := by
  unfold DirSyslogger.process_entry DirSyslogger.is_old getctime
  rw [hm, hd, hp, hb]
  cases hE : (d.filetypes.any (fun t => str_endswith e.name t) ||
      d.filetypes.isEmpty) with
  | false => simp
  | true =>
      by_cases hgt : now - e.ctime > (b : Int)
      · simp [hgt]
      · simp [hgt]

/-- Witness for the C4 amended theorem at a concrete marked old entry. -/
theorem marked_deletion_requires_suffix_match_witness :
    DirSyslogger.process_entry ⟨"/logs", ["log"], "7d", 0, 0⟩ 864000
      ⟨"_a.log", false, 0, true, []⟩ =
      .ok [FsAction.delete "/logs/_a.log"] := by
  exact (marked_deletion_requires_suffix_match
      ⟨"/logs", ["log"], "7d", 0, 0⟩ 864000 ⟨"_a.log", false, 0, true, []⟩
      604800 (by decide) rfl rfl (by decide)).mpr ⟨by decide, by decide⟩

/-- C5: in one scan, every unmarked, present, non-directory entry passing
the suffix filter is forwarded in full through a transient one-shot
`FileSyslogger` and then renamed with a `_` prefix in the same directory;
unmarked entries failing the filter are left untouched; and concretely,
scanning `a.log`, `b.txt`, `_c.log` (10 days old) with
`filetypes = ["log"]` and backlog `7d` emits `a.log`, renames it to
`_a.log`, leaves `b.txt` alone, and deletes `_c.log`. -/
theorem scan_forward_rename_delete :
    (∀ (d : DirSyslogger) (now : Int) (e : DirEntry),
      e.isDir = false → str_startswith e.name "_" = false →
      e.present = true →
      (d.filetypes.any (fun t => str_endswith e.name t) ||
        d.filetypes.isEmpty) = true →
      d.process_entry now e =
        .ok [FsAction.emit (fullpath d.dir e.name) e.content,
             FsAction.rename (fullpath d.dir e.name)
               (markedName d.dir e.name)]) ∧
    (∀ (d : DirSyslogger) (now : Int) (e : DirEntry),
      str_startswith e.name "_" = false →
      (d.filetypes.any (fun t => str_endswith e.name t) ||
        d.filetypes.isEmpty) = false →
      d.process_entry now e = .ok []) ∧
    DirSyslogger.process_dir ⟨"/logs", ["log"], "7d", 0, 0⟩ 864000
      [⟨"a.log", false, 864000, true, "hello".data⟩,
       ⟨"b.txt", false, 864000, true, "bye".data⟩,
       ⟨"_c.log", false, 0, true, "old".data⟩] =
      .ok [FsAction.emit "/logs/a.log" "hello".data,
           FsAction.rename "/logs/a.log" "/logs/_a.log",
           FsAction.delete "/logs/_c.log"] := by
  refine ⟨?_, ?_, by decide⟩
  · intro d now e hdir hmark hpres helig
    unfold DirSyslogger.process_entry open_file
    rw [hdir, hmark, hpres, helig]
    rfl
  · intro d now e hmark helig
    unfold DirSyslogger.process_entry
    rw [helig]
    rfl

/-- Witness for C5 at concrete eligible and ineligible unmarked entries. -/
theorem scan_forward_rename_delete_witness :
    DirSyslogger.process_entry ⟨"/logs", ["log"], "7d", 0, 0⟩ 864000
      ⟨"a.log", false, 864000, true, "hello".data⟩ =
      .ok [FsAction.emit "/logs/a.log" "hello".data,
           FsAction.rename "/logs/a.log" "/logs/_a.log"] ∧
    DirSyslogger.process_entry ⟨"/logs", ["log"], "7d", 0, 0⟩ 864000
      ⟨"b.txt", false, 864000, true, "bye".data⟩ = .ok [] := by
  refine ⟨?_, ?_⟩
  · exact scan_forward_rename_delete.1 ⟨"/logs", ["log"], "7d", 0, 0⟩ 864000
      ⟨"a.log", false, 864000, true, "hello".data⟩ rfl (by decide) rfl
      (by decide)
  · exact scan_forward_rename_delete.2.1 ⟨"/logs", ["log"], "7d", 0, 0⟩
      864000 ⟨"b.txt", false, 864000, true, "bye".data⟩ (by decide)
      (by decide)

/-- C6 counterexample: a scan of `[gone.log, next.log]` in which `gone.log`
vanishes between listing and open aborts with the OS error — the error
propagates out of the scan and `next.log` is never processed, contrary to
the per-file isolation the claim states. -/
theorem per_file_failure_aborts_scan_cex :
    DirSyslogger.process_dir ⟨"/logs", [], "7d", 0, 0⟩ 0
      [⟨"gone.log", false, 0, false, "data".data⟩,
       ⟨"next.log", false, 0, true, "x".data⟩] =
      .error (.ioError "/logs/gone.log") := by
  decide

/-- Unfolding equation for `__process_dir` on a nonempty listing. -/
theorem process_dir_cons (d : DirSyslogger) (now : Int) (e : DirEntry)
    (es : List DirEntry) :
    d.process_dir now (e :: es) =
      match d.process_entry now e with
      | .error err => .error err
      | .ok a =>
          match d.process_dir now es with
          | .error err => .error err
          | .ok rest => .ok (a ++ rest) := rfl

/-- C6 amended: a failure while processing one entry aborts the scan: after
any prefix of successfully processed entries, the first failing entry's
error propagates out of `__process_dir` and the remaining entries are not
processed. -/
theorem per_file_failure_propagates
    (d : DirSyslogger) (now : Int) (pre post : List DirEntry) (e : DirEntry)
    (acts : List FsAction) (err : SysError)
    (hpre : d.process_dir now pre = .ok acts)
    (he : d.process_entry now e = .error err) :
    d.process_dir now (pre ++ e :: post) = .error err := by
  induction pre generalizing acts with
  | nil =>
      simp only [List.nil_append, DirSyslogger.process_dir, he]
  | cons p ps ih =>
      rw [process_dir_cons] at hpre
      rw [List.cons_append, process_dir_cons]
      cases hp : d.process_entry now p with
      | error e0 =>
          rw [hp] at hpre
          cases hpre
      | ok a =>
          rw [hp] at hpre
          cases hps : DirSyslogger.process_dir d now ps with
          | error e0 =>
              rw [hps] at hpre
              cases hpre
          | ok rest => rw [ih rest hps]

/-- Witness for the C6 amended theorem at a concrete two-entry listing. -/
theorem per_file_failure_propagates_witness :
    DirSyslogger.process_dir ⟨"/logs", [], "7d", 0, 0⟩ 0
      [⟨"vanishing.log", false, 0, false, "data".data⟩,
       ⟨"later.log", false, 0, true, "x".data⟩] =
      .error (.ioError "/logs/vanishing.log") := by
  exact per_file_failure_propagates ⟨"/logs", [], "7d", 0, 0⟩ 0 []
    [⟨"later.log", false, 0, true, "x".data⟩]
    ⟨"vanishing.log", false, 0, false, "data".data⟩ [] 
    (.ioError "/logs/vanishing.log") rfl (by decide)
